import Mathlib

/-!
Verification of the transaction intake pipeline: the Go ledger service
(pricing, atomic persistence, statistics) and the JS gateway dispatcher
(authentication, cache-aside wrapper, fan-out aggregation, event publish,
cache invalidation). Monetary values are modelled over the rationals;
stateful collaborators (ledger store, cache store, event channel) are
modelled as explicit state passed through the handlers, with failure
oracles standing in for the I/O outcomes the code branches on.
-/

namespace GoService

/-- A line item of a transaction request, from `type Item` in main.go. -/
structure Item where
  id : String
  name : String
  price : ℚ
  quantity : Int
  category : String
deriving DecidableEq, Repr

/-- A transaction request body, from `type TransactionRequest` in main.go. -/
structure TransactionRequest where
  items : List Item
  customerID : String
  discountCode : String
deriving DecidableEq, Repr

/-- Tax rate constant `TAX_RATE = 0.08` from main.go. -/
def TAX_RATE : ℚ := 8 / 100

/-- `calculateSubtotal` from main.go: items with non-positive quantity or
negative price are skipped; the rest contribute `price * quantity`. -/
def calculateSubtotal (items : List Item) : ℚ :=
  items.foldl
    (fun acc item =>
      if item.quantity ≤ 0 ∨ item.price < 0 then acc
      else acc + item.price * (item.quantity : ℚ))
    0

/-- `applyDiscount` from main.go: empty code gives 0; the four known codes
give a fixed percentage of the subtotal; unknown codes give 0. -/
def applyDiscount (subtotal : ℚ) (discountCode : String) : ℚ :=
  if discountCode = "" then 0
  else if discountCode = "SAVE10" then subtotal * (10 / 100)
  else if discountCode = "SAVE20" then subtotal * (20 / 100)
  else if discountCode = "WELCOME" then subtotal * (15 / 100)
  else if discountCode = "VIP" then subtotal * (25 / 100)
  else 0

/-- `calculateTax` from main.go. -/
def calculateTax (subtotal : ℚ) (taxRate : ℚ) : ℚ :=
  subtotal * taxRate

/-- The pricing block of `processTransactionHandler` (main.go lines 268-271):
subtotal, discount, tax and total, in the order the handler computes them. -/
structure Pricing where
  subtotal : ℚ
  discount : ℚ
  tax : ℚ
  total : ℚ
deriving DecidableEq, Repr

def pricingOf (items : List Item) (discountCode : String) : Pricing :=
  let subtotal := calculateSubtotal items
  let discount := applyDiscount subtotal discountCode
  let tax := calculateTax (subtotal - discount) TAX_RATE
  { subtotal := subtotal
    discount := discount
    tax := tax
    total := subtotal - discount + tax }

/-- Rounding to two decimals (round half away handled by Mathlib `round`,
which rounds half up; the counterexample below is robust to the choice). -/
def round2 (x : ℚ) : ℚ :=
  (round (x * 100) : ℤ) / 100

lemma calculateSubtotal_go_nonneg (items : List Item) (acc : ℚ) (hacc : 0 ≤ acc) :
    0 ≤ items.foldl
      (fun acc item =>
        if item.quantity ≤ 0 ∨ item.price < 0 then acc
        else acc + item.price * (item.quantity : ℚ))
      acc := by
  induction items generalizing acc with
  | nil => simpa using hacc
  | cons hd tl ih =>
    simp only [List.foldl_cons]
    apply ih
    by_cases hq : hd.quantity ≤ 0 ∨ hd.price < 0
    · simpa [hq] using hacc
    · rw [if_neg hq]
      push_neg at hq
      have hp : 0 ≤ hd.price := hq.2
      have hq0 : (0 : ℚ) ≤ (hd.quantity : ℚ) := by exact_mod_cast le_of_lt hq.1
      have hmul : 0 ≤ hd.price * (hd.quantity : ℚ) := mul_nonneg hp hq0
      linarith

lemma calculateSubtotal_nonneg (items : List Item) : 0 ≤ calculateSubtotal items :=
  calculateSubtotal_go_nonneg items 0 le_rfl

lemma applyDiscount_nonneg (subtotal : ℚ) (code : String) (h : 0 ≤ subtotal) :
    0 ≤ applyDiscount subtotal code := by
  unfold applyDiscount
  repeat' split
  all_goals positivity

lemma applyDiscount_le (subtotal : ℚ) (code : String) (h : 0 ≤ subtotal) :
    applyDiscount subtotal code ≤ subtotal := by
  unfold applyDiscount
  repeat' split
  all_goals linarith

/-- The spec's worked example: price 699.00 quantity 1, and price 24.99
quantity 4, with discount code SAVE10. -/
def exampleItems : List Item :=
  [ { id := "sku-1", name := "A", price := 699, quantity := 1, category := "c" },
    { id := "sku-2", name := "B", price := 2499 / 100, quantity := 4, category := "c" } ]

lemma pricingOf_example :
    pricingOf exampleItems "SAVE10" =
      { subtotal := 79896 / 100, discount := 79896 / 1000,
        tax := 5752512 / 100000, total := 77658912 / 100000 } := by
  simp only [pricingOf, exampleItems, calculateSubtotal, applyDiscount, calculateTax,
    TAX_RATE, List.foldl_cons, List.foldl_nil, String.reduceEq, reduceIte]
  norm_num

/-- Claim C1: the claim asserts the returned total equals the two-decimal
rounding of subtotal - discount + tax. The handler applies no rounding at
all: on the spec's own example (699.00 x1, 24.99 x4, code SAVE10) the
returned total is 776.58912, while the two-decimal rounding of
subtotal - discount + tax is 776.59, so the claim as stated is false. -/
theorem c1_total_not_rounded :
    ¬ ((pricingOf exampleItems "SAVE10").total =
        round2 ((pricingOf exampleItems "SAVE10").subtotal -
          (pricingOf exampleItems "SAVE10").discount +
          (pricingOf exampleItems "SAVE10").tax)) := by
  rw [pricingOf_example]
  norm_num [round2, round_eq]

/-- Claim C1 (amended): for every item list and discount code the returned
total equals subtotal - discount + tax exactly, with no rounding applied at
any step, and each of subtotal, discount and tax is non-negative. -/
theorem c1_pricing_exact_and_nonneg (items : List Item) (code : String) :
    (pricingOf items code).total =
      (pricingOf items code).subtotal - (pricingOf items code).discount +
        (pricingOf items code).tax ∧
    0 ≤ (pricingOf items code).subtotal ∧
    0 ≤ (pricingOf items code).discount ∧
    0 ≤ (pricingOf items code).tax := by
  have hs := calculateSubtotal_nonneg items
  have hd := applyDiscount_nonneg (calculateSubtotal items) code hs
  have hle := applyDiscount_le (calculateSubtotal items) code hs
  refine ⟨rfl, hs, hd, ?_⟩
  simp only [pricingOf, calculateTax, TAX_RATE]
  have hrem : 0 ≤ calculateSubtotal items - applyDiscount (calculateSubtotal items) code := by
    linarith
  positivity

/-- A committed header row of the `transactions` table. -/
structure TxRow where
  id : String
  customerID : String
  subtotal : ℚ
  tax : ℚ
  discount : ℚ
  total : ℚ
deriving DecidableEq, Repr

/-- A committed row of the `transaction_items` table. -/
structure ItemRow where
  txId : String
  productId : String
  name : String
  category : String
  unitPrice : ℚ
  quantity : Int
deriving DecidableEq, Repr

/-- The ledger store: the committed rows of both tables. Writes made inside
an open SQL transaction live in the transaction object and reach this state
only at commit; the handler's deferred Rollback discards them otherwise. -/
structure Ledger where
  txs : List TxRow
  items : List ItemRow
deriving DecidableEq, Repr

/-- Failure oracle for the persistence steps of `processTransactionHandler`:
whether BeginTx, the header INSERT, the i-th item INSERT, or Commit errors. -/
structure DbFailures where
  beginFails : Bool
  headerFails : Bool
  itemFails : Nat → Bool
  commitFails : Bool

/-- The header row the handler INSERTs (main.go lines 308-311). -/
def headerRowOf (req : TransactionRequest) (txId : String) : TxRow :=
  let p := pricingOf req.items req.discountCode
  { id := txId, customerID := req.customerID, subtotal := p.subtotal,
    tax := p.tax, discount := p.discount, total := p.total }

/-- The line-item row inserted for one request item (main.go lines 324-328). -/
def itemRowOf (txId : String) (item : Item) : ItemRow :=
  { txId := txId, productId := item.id, name := item.name,
    category := item.category, unitPrice := item.price, quantity := item.quantity }

/-- The item INSERT loop of `processTransactionHandler` (main.go lines
317-333): every request item is inserted into the open transaction in order;
the first failing INSERT aborts the handler with an error. `acc` is the list
of rows already written into the open transaction. -/
def insertItems (txId : String) (itemFails : Nat → Bool) :
    List Item → Nat → List ItemRow → Option (List ItemRow)
  | [], _, acc => some acc
  | item :: rest, i, acc =>
      if itemFails i then none
      else insertItems txId itemFails rest (i + 1) (acc ++ [itemRowOf txId item])

/-- Status code and resulting committed ledger state of one handler run. -/
structure HandlerOutcome where
  status : Nat
  db : Ledger
deriving DecidableEq, Repr

/-- `processTransactionHandler` (main.go lines 249-346), validation and
persistence path: reject an empty item list with 400 before touching the
store; otherwise BeginTx, INSERT the header, INSERT each item, and Commit.
Any error path returns 500 and, by the deferred Rollback, leaves the
committed state unchanged; only Commit publishes the buffered rows. -/
def processTransactionHandler (db : Ledger) (req : TransactionRequest)
    (txId : String) (f : DbFailures) : HandlerOutcome :=
  if req.items.length = 0 then { status := 400, db := db }
  else if f.beginFails then { status := 500, db := db }
  else if f.headerFails then { status := 500, db := db }
  else
    match insertItems txId f.itemFails req.items 0 [] with
    | none => { status := 500, db := db }
    | some rows =>
        if f.commitFails then { status := 500, db := db }
        else { status := 200,
               db := { txs := db.txs ++ [headerRowOf req txId],
                       items := db.items ++ rows } }

lemma insertItems_ok (txId : String) (itemFails : Nat → Bool) :
    ∀ (items : List Item) (i : Nat) (acc rows : List ItemRow),
      insertItems txId itemFails items i acc = some rows →
      rows = acc ++ items.map (itemRowOf txId) := by
  intro items
  induction items with
  | nil =>
    intro i acc rows h
    simp only [insertItems, Option.some.injEq] at h
    subst h
    simp
  | cons hd tl ih =>
    intro i acc rows h
    simp only [insertItems] at h
    by_cases hf : itemFails i
    · simp [hf] at h
    · rw [if_neg hf] at h
      have := ih (i + 1) (acc ++ [itemRowOf txId hd]) rows h
      simp [this]

/-- Claim C2: persistence is all-or-nothing. When the item list is
non-empty, either the run returns 200 and the committed state gains exactly
the header row plus one row per request item, or the run returns 500 (a
server error after rollback) and the committed state is unchanged. -/
theorem c2_atomic_persistence (db : Ledger) (req : TransactionRequest)
    (txId : String) (f : DbFailures) (hitems : req.items ≠ []) :
    ((processTransactionHandler db req txId f).status = 200 ∧
      (processTransactionHandler db req txId f).db =
        { txs := db.txs ++ [headerRowOf req txId],
          items := db.items ++ req.items.map (itemRowOf txId) }) ∨
    ((processTransactionHandler db req txId f).status = 500 ∧
      (processTransactionHandler db req txId f).db = db) := by
  have hlen : ¬ req.items.length = 0 := by
    simpa [List.length_eq_zero] using hitems
  unfold processTransactionHandler
  rw [if_neg hlen]
  by_cases hb : f.beginFails
  · right; simp [hb]
  · rw [if_neg hb]
    by_cases hh : f.headerFails
    · right; simp [hh]
    · rw [if_neg hh]
      rcases hins : insertItems txId f.itemFails req.items 0 [] with _ | rows
      · right
        simp [hins]
      · have hrows := insertItems_ok txId f.itemFails req.items 0 [] rows hins
        by_cases hc : f.commitFails
        · right
          simp [hins, hc]
        · left
          simp only [hins]
          rw [if_neg hc]
          exact ⟨rfl, by simp [hrows]⟩

/-- A request with a single item of quantity 0: every item has non-positive
quantity, yet the handler does not reject it. -/
def zeroQtyReq : TransactionRequest :=
  { items := [{ id := "p1", name := "X", price := 5, quantity := 0, category := "c" }],
    customerID := "", discountCode := "" }

/-- The oracle under which every persistence step succeeds. -/
def noFailures : DbFailures :=
  { beginFails := false, headerFails := false,
    itemFails := fun _ => false, commitFails := false }

/-- Claim C3: the claim says a request whose items all have non-positive
quantities is rejected with 400 before any persistence. It is not: the
handler only rejects an empty item list, so a request with one quantity-0
item passes validation, returns 200, and its header and item rows are
persisted (contributing 0 to the subtotal). -/
theorem c3_nonpositive_quantities_not_rejected :
    (processTransactionHandler { txs := [], items := [] } zeroQtyReq "tx-1" noFailures).status
        = 200 ∧
    (processTransactionHandler { txs := [], items := [] } zeroQtyReq "tx-1" noFailures).db
        ≠ { txs := [], items := [] } := by
  constructor
  · rfl
  · decide

/-- Claim C3 (amended): every transaction-creation request whose item list
is missing or empty is rejected with HTTP 400 before any persistence
attempt, and no header or line-item row is written for it. (A request whose
items all have non-positive quantities is accepted and persisted.) -/
theorem c3_empty_items_rejected (db : Ledger) (req : TransactionRequest)
    (txId : String) (f : DbFailures) (h : req.items = []) :
    (processTransactionHandler db req txId f).status = 400 ∧
      (processTransactionHandler db req txId f).db = db := by
  unfold processTransactionHandler
  simp [h]

/-- Witness for the amended C3 at a concrete empty request. -/
theorem c3_empty_items_rejected_witness :
    (processTransactionHandler { txs := [], items := [] }
        { items := [], customerID := "", discountCode := "" } "tx-1" noFailures).status = 400 ∧
    (processTransactionHandler { txs := [], items := [] }
        { items := [], customerID := "", discountCode := "" } "tx-1" noFailures).db
      = { txs := [], items := [] } :=
  c3_empty_items_rejected { txs := [], items := [] }
    { items := [], customerID := "", discountCode := "" } "tx-1" noFailures rfl

/-- Witness for C2 at a concrete one-item request with no failures. -/
theorem c2_atomic_persistence_witness :
    ((processTransactionHandler { txs := [], items := [] } zeroQtyReq "tx-1"
        noFailures).status = 200 ∧
      (processTransactionHandler { txs := [], items := [] } zeroQtyReq "tx-1"
        noFailures).db =
        { txs := ([] : List TxRow) ++ [headerRowOf zeroQtyReq "tx-1"],
          items := ([] : List ItemRow) ++ zeroQtyReq.items.map (itemRowOf "tx-1") }) ∨
    ((processTransactionHandler { txs := [], items := [] } zeroQtyReq "tx-1"
        noFailures).status = 500 ∧
      (processTransactionHandler { txs := [], items := [] } zeroQtyReq "tx-1"
        noFailures).db = { txs := [], items := [] }) :=
  c2_atomic_persistence { txs := [], items := [] } zeroQtyReq "tx-1" noFailures
    (by decide)

/-- `SELECT COUNT(*) FROM transactions` evaluated over the ledger state. -/
def sqlCount (db : Ledger) : Nat :=
  db.txs.length

/-- `COALESCE(SUM(total), 0)` over the transactions table. -/
def sqlSumTotal (db : Ledger) : ℚ :=
  (db.txs.map TxRow.total).sum

/-- The aggregate fields of `ServiceStats` that depend on the store. -/
structure StatsBody where
  totalTransactions : Nat
  totalRevenue : ℚ
  averageOrderValue : ℚ
deriving DecidableEq, Repr

/-- `statsHandler` (main.go lines 386-416): count and revenue come from one
aggregate query against the transactions table of the ledger store; the
average is revenue / count, with 0 when the count is 0. -/
def statsHandler (db : Ledger) : StatsBody :=
  let count := sqlCount db
  let revenue := sqlSumTotal db
  let avg : ℚ := if 0 < count then revenue / (count : ℚ) else 0
  { totalTransactions := count, totalRevenue := revenue, averageOrderValue := avg }

/-- Claim C7: the statistics operation computes total count and total
revenue directly from the ledger store state (they are exactly the row
count and the sum of persisted totals), and the average order value is
revenue / count when count > 0 and exactly 0 when count = 0. -/
theorem c7_stats_from_store (db : Ledger) :
    (statsHandler db).totalTransactions = db.txs.length ∧
    (statsHandler db).totalRevenue = (db.txs.map TxRow.total).sum ∧
    (0 < db.txs.length →
      (statsHandler db).averageOrderValue =
        (db.txs.map TxRow.total).sum / (db.txs.length : ℚ)) ∧
    (db.txs.length = 0 → (statsHandler db).averageOrderValue = 0) := by
  refine ⟨rfl, rfl, ?_, ?_⟩
  · intro h
    simp [statsHandler, sqlCount, sqlSumTotal, h]
  · intro h
    simp [statsHandler, sqlCount, sqlSumTotal, h]

/-- A one-row ledger used to witness the statistics contract. -/
def statsDb : Ledger :=
  { txs := [{ id := "t1", customerID := "", subtotal := 10, tax := 1,
              discount := 0, total := 11 }],
    items := [] }

/-- Witness for C7 at a concrete one-row ledger. -/
theorem c7_stats_from_store_witness :
    (statsHandler statsDb).totalTransactions = statsDb.txs.length ∧
    (statsHandler statsDb).totalRevenue = (statsDb.txs.map TxRow.total).sum ∧
    (0 < statsDb.txs.length →
      (statsHandler statsDb).averageOrderValue =
        (statsDb.txs.map TxRow.total).sum / (statsDb.txs.length : ℚ)) ∧
    (statsDb.txs.length = 0 → (statsHandler statsDb).averageOrderValue = 0) :=
  c7_stats_from_store statsDb

end GoService

namespace Gateway

/-- A JSON-serializable value as the gateway passes it around; structured
enough to express JavaScript truthiness, which `cache.wrap` branches on. -/
inductive JsValue where
  | vnull
  | vbool (b : Bool)
  | vnum (q : ℚ)
  | vstr (s : String)
  | vobj (fields : List (String × String))
deriving DecidableEq, Repr

/-- JavaScript truthiness: null, false, 0 and the empty string are falsy;
every object is truthy. -/
def truthy : JsValue → Bool
  | .vnull => false
  | .vbool b => b
  | .vnum q => q != 0
  | .vstr s => s != ""
  | .vobj _ => true

/-- The cache store: one entry per key holding the (deserialized) stored
value and its absolute expiry second. `SET key value EX ttl` issued at
second `now` makes the key expire at `now + ttl`. -/
structure CacheState where
  entries : List (String × JsValue × Nat)
deriving DecidableEq, Repr

/-- `get` (cache.js lines 38-42): a live entry parses back to the stored
value; an absent or expired key yields null. The code's truthiness test on
the raw serialized string never filters a live entry, because serialized
JSON text is non-empty. -/
def cacheGet (st : CacheState) (now : Nat) (key : String) : Option JsValue :=
  match st.entries.find? (fun e => e.1 == key) with
  | some (_, v, expiry) => if now < expiry then some v else none
  | none => none

/-- `set` (cache.js lines 44-47): store the value with expiry `now + ttl`,
replacing any previous entry for the key. -/
def cacheSet (st : CacheState) (now : Nat) (key : String) (v : JsValue)
    (ttl : Nat) : CacheState :=
  { entries := (key, v, now + ttl) :: st.entries.filter (fun e => e.1 != key) }

/-- `del` (cache.js lines 60-63): remove the key. -/
def cacheDel (st : CacheState) (key : String) : CacheState :=
  { entries := st.entries.filter (fun e => e.1 != key) }

/-- Result of one `wrap` call: new cache state, returned data, hit flag. -/
structure WrapResult where
  st : CacheState
  data : JsValue
  cacheHit : Bool
deriving DecidableEq, Repr

/-- `wrap` (cache.js lines 49-58): read the key; a truthy cached value is
returned as a hit; otherwise (key absent, expired, or cached value falsy)
the underlying fetch runs, its result is stored with the ttl, and it is
returned as a miss. The fetch is modelled by its result `fetched`. -/
def wrap (st : CacheState) (now : Nat) (key : String) (fetched : JsValue)
    (ttl : Nat) : WrapResult :=
  match cacheGet st now key with
  | some v =>
      if truthy v then { st := st, data := v, cacheHit := true }
      else { st := cacheSet st now key fetched ttl, data := fetched, cacheHit := false }
  | none => { st := cacheSet st now key fetched ttl, data := fetched, cacheHit := false }

lemma cacheGet_after_set_live (st : CacheState) (now now2 : Nat) (key : String)
    (v : JsValue) (ttl : Nat) (h : now2 < now + ttl) :
    cacheGet (cacheSet st now key v ttl) now2 key = some v := by
  simp [cacheGet, cacheSet, List.find?_cons, h]

lemma cacheGet_after_set_expired (st : CacheState) (now now2 : Nat) (key : String)
    (v : JsValue) (ttl : Nat) (h : now + ttl ≤ now2) :
    cacheGet (cacheSet st now key v ttl) now2 key = none := by
  simp [cacheGet, cacheSet, List.find?_cons, Nat.not_lt_of_le h]

lemma cacheGet_after_del (st : CacheState) (now : Nat) (key : String) :
    cacheGet (cacheDel st key) now key = none := by
  have hfind : (cacheDel st key).entries.find? (fun e => e.1 == key) = none := by
    rw [List.find?_eq_none]
    intro x hx
    have hmem := List.mem_filter.mp hx
    simpa using hmem.2
  simp [cacheGet, hfind]

/-- Claim C8: the claim says any read of a key within the TTL after a
populating miss is a hit. It is not when the stored payload is falsy: the
wrapper tests JavaScript truthiness, so a cached null (the stored result of
looking up an absent record) is treated as a miss one second later, still
well inside the 120-second TTL, and the fetch re-runs. -/
theorem c8_falsy_payload_remisses :
    ((wrap { entries := [] } 0 "transaction:x" JsValue.vnull 120).cacheHit = false) ∧
    ((wrap (wrap { entries := [] } 0 "transaction:x" JsValue.vnull 120).st
        1 "transaction:x" JsValue.vnull 120).cacheHit = false) := by
  decide

/-- Claim C8 (amended): under the cache-aside wrapper, a read of an absent
key is a miss that stores the fetch result with the configured TTL; a read
within the TTL whose stored payload is truthy is a hit returning exactly
the stored payload with the cache unchanged; a read after explicit
invalidation is a miss again; and a read at or past the expiry time is a
miss again. (A falsy stored payload, such as null, re-misses within the
TTL.) -/
theorem c8_cache_aside (st : CacheState) (now now2 : Nat) (key : String)
    (fetched v2 : JsValue) (ttl : Nat) :
    (cacheGet st now key = none →
      wrap st now key fetched ttl =
        { st := cacheSet st now key fetched ttl, data := fetched, cacheHit := false }) ∧
    (truthy fetched = true → now2 < now + ttl →
      wrap (cacheSet st now key fetched ttl) now2 key v2 ttl =
        { st := cacheSet st now key fetched ttl, data := fetched, cacheHit := true }) ∧
    ((wrap (cacheDel st key) now2 key v2 ttl).cacheHit = false) ∧
    (now + ttl ≤ now2 →
      (wrap (cacheSet st now key fetched ttl) now2 key v2 ttl).cacheHit = false) := by
  refine ⟨?_, ?_, ?_, ?_⟩
  · intro h
    simp [wrap, h]
  · intro htr hlt
    simp [wrap, cacheGet_after_set_live st now now2 key fetched ttl hlt, htr]
  · simp [wrap, cacheGet_after_del]
  · intro hexp
    simp [wrap, cacheGet_after_set_expired st now now2 key fetched ttl hexp]

/-- Witness for the amended C8 at a concrete key, payload and clock:
miss-then-populate at second 0, hit at second 5, miss after invalidation,
miss at second 130 (past the 120-second expiry). -/
theorem c8_cache_aside_witness :
    (wrap { entries := [] } 0 "transaction:a" (JsValue.vstr "body") 120 =
      { st := cacheSet { entries := [] } 0 "transaction:a" (JsValue.vstr "body") 120,
        data := JsValue.vstr "body", cacheHit := false }) ∧
    (wrap (cacheSet { entries := [] } 0 "transaction:a" (JsValue.vstr "body") 120)
        5 "transaction:a" (JsValue.vstr "other") 120 =
      { st := cacheSet { entries := [] } 0 "transaction:a" (JsValue.vstr "body") 120,
        data := JsValue.vstr "body", cacheHit := true }) ∧
    ((wrap (cacheDel { entries := [] } "transaction:a") 5 "transaction:a"
        (JsValue.vstr "other") 120).cacheHit = false) ∧
    ((wrap (cacheSet { entries := [] } 0 "transaction:a" (JsValue.vstr "body") 120)
        130 "transaction:a" (JsValue.vstr "other") 120).cacheHit = false) := by
  refine ⟨?_, ?_, ?_, ?_⟩
  · exact (c8_cache_aside { entries := [] } 0 5 "transaction:a" (JsValue.vstr "body")
      (JsValue.vstr "other") 120).1 (by decide)
  · exact (c8_cache_aside { entries := [] } 0 5 "transaction:a" (JsValue.vstr "body")
      (JsValue.vstr "other") 120).2.1 (by decide) (by decide)
  · exact (c8_cache_aside { entries := [] } 0 5 "transaction:a" (JsValue.vstr "body")
      (JsValue.vstr "other") 120).2.2.1
  · exact (c8_cache_aside { entries := [] } 0 130 "transaction:a" (JsValue.vstr "body")
      (JsValue.vstr "other") 120).2.2.2 (by decide)

/-- Why local JWT verification failed: `jwt.verify` throws
JsonWebTokenError for malformed tokens and bad signatures,
TokenExpiredError for expired ones, NotBeforeError otherwise. -/
inductive LocalJwtError where
  | jsonWebTokenError
  | tokenExpiredError
  | notBeforeError
deriving DecidableEq, Repr

/-- Outcome of local `jwt.verify` on a token. -/
inductive LocalVerify where
  | ok (user : String)
  | err (e : LocalJwtError)
deriving DecidableEq, Repr

/-- Outcome of the remote `POST /api/v1/validate` call: a response carrying
its `valid` flag and user, or a thrown network/HTTP failure. -/
inductive RemoteVerify where
  | resp (valid : Bool) (user : String)
  | failure
deriving DecidableEq, Repr

/-- What the middleware did with the request. -/
inductive AuthDecision where
  | proceed (user : Option String)
  | reject (status : Nat) (message : String)
deriving DecidableEq, Repr

/-- Middleware outcome plus whether the remote Auth collaborator was
called. -/
structure AuthResult where
  decision : AuthDecision
  remoteCalled : Bool
deriving DecidableEq, Repr

/-- The 401 message for a missing or non-Bearer Authorization header. -/
def noTokenMsg : String :=
  "No token provided. Include Authorization Bearer header."

/-- JavaScript `s.startsWith(p)`, over the character lists. -/
def strStartsWith (s p : String) : Bool :=
  p.data.isPrefixOf s.data

/-- JavaScript `header.substring(7)`: drop the `Bearer ` marker. -/
def dropBearer (header : String) : String :=
  String.mk (header.data.drop 7)

/-- `authenticateToken` (auth.js lines 15-72): skip the allow-list; reject
a missing or non-Bearer header with 401 at once; verify locally; on any
local failure call the remote validate endpoint; if the remote response
says valid, proceed, else 401; if the remote call itself fails, the 401
message is picked by the kind of the original local error. -/
def authenticateToken (path : String) (authHeader : Option String)
    (localVerify : String → LocalVerify) (remote : String → RemoteVerify) :
    AuthResult :=
  if path = "/health" ∨ path = "/metrics" then
    { decision := .proceed none, remoteCalled := false }
  else if strStartsWith path "/v1/auth/" then
    { decision := .proceed none, remoteCalled := false }
  else
    match authHeader with
    | none => { decision := .reject 401 noTokenMsg, remoteCalled := false }
    | some header =>
        if strStartsWith header "Bearer " then
          match localVerify (dropBearer header) with
          | .ok user => { decision := .proceed (some user), remoteCalled := false }
          | .err e =>
              match remote (dropBearer header) with
              | .resp true user =>
                  { decision := .proceed (some user), remoteCalled := true }
              | .resp false _ =>
                  { decision := .reject 401 "Invalid token", remoteCalled := true }
              | .failure =>
                  if e = .jsonWebTokenError then
                    { decision := .reject 401 "Invalid token", remoteCalled := true }
                  else if e = .tokenExpiredError then
                    { decision := .reject 401 "Token expired", remoteCalled := true }
                  else
                    { decision := .reject 401 "Token validation failed", remoteCalled := true }
        else
          { decision := .reject 401 noTokenMsg, remoteCalled := false }

/-- Claim C5: the claim says the remote fallback happens only when local
verification fails for a reason other than a malformed credential, and a
malformed credential is rejected immediately without any remote call. In
the code the catch block calls the remote validate endpoint on every local
failure: a malformed token (JsonWebTokenError) on a protected route
triggers the remote call. -/
theorem c5_malformed_token_calls_remote :
    (authenticateToken "/api/v1/aggregate" (some "Bearer not.a.jwt")
      (fun _ => LocalVerify.err LocalJwtError.jsonWebTokenError)
      (fun _ => RemoteVerify.failure)).remoteCalled = true := by
  decide

/-- Claim C5 (amended): on a protected route the gateway verifies locally
first; a missing or non-Bearer credential is rejected 401 immediately with
no remote call; a locally valid credential proceeds with no remote call; on
ANY local failure, malformed included, the remote Auth collaborator is
called; and when the remote response is not valid or the remote call fails,
the request is rejected with 401. -/
theorem c5_auth_two_tier (path header : String)
    (localVerify : String → LocalVerify) (remote : String → RemoteVerify)
    (hp1 : ¬ (path = "/health" ∨ path = "/metrics"))
    (hp2 : strStartsWith path "/v1/auth/" = false) :
    (authenticateToken path none localVerify remote =
      { decision := .reject 401 noTokenMsg, remoteCalled := false }) ∧
    (strStartsWith header "Bearer " = false →
      authenticateToken path (some header) localVerify remote =
        { decision := .reject 401 noTokenMsg, remoteCalled := false }) ∧
    (∀ user, strStartsWith header "Bearer " = true →
      localVerify (dropBearer header) = .ok user →
      authenticateToken path (some header) localVerify remote =
        { decision := .proceed (some user), remoteCalled := false }) ∧
    (∀ e, strStartsWith header "Bearer " = true →
      localVerify (dropBearer header) = .err e →
      (authenticateToken path (some header) localVerify remote).remoteCalled = true) ∧
    (∀ e u, strStartsWith header "Bearer " = true →
      localVerify (dropBearer header) = .err e →
      remote (dropBearer header) = .resp false u →
      ∃ msg, (authenticateToken path (some header) localVerify remote).decision =
        .reject 401 msg) ∧
    (∀ e, strStartsWith header "Bearer " = true →
      localVerify (dropBearer header) = .err e →
      remote (dropBearer header) = .failure →
      ∃ msg, (authenticateToken path (some header) localVerify remote).decision =
        .reject 401 msg) := by
  refine ⟨?_, ?_, ?_, ?_, ?_, ?_⟩
  · simp [authenticateToken, hp1, hp2]
  · intro hb
    simp [authenticateToken, hp1, hp2, hb]
  · intro user hb hl
    simp [authenticateToken, hp1, hp2, hb, hl]
  · intro e hb hl
    rcases hr : remote (dropBearer header) with ⟨valid, u⟩ | _
    · cases valid
      · simp [authenticateToken, hp1, hp2, hb, hl, hr]
      · simp [authenticateToken, hp1, hp2, hb, hl, hr]
    · by_cases h1 : e = .jsonWebTokenError
      · simp [authenticateToken, hp1, hp2, hb, hl, hr, h1]
      · by_cases h2 : e = .tokenExpiredError
        · simp [authenticateToken, hp1, hp2, hb, hl, hr, h1, h2]
        · simp [authenticateToken, hp1, hp2, hb, hl, hr, h1, h2]
  · intro e u hb hl hr
    exact ⟨"Invalid token", by simp [authenticateToken, hp1, hp2, hb, hl, hr]⟩
  · intro e hb hl hr
    by_cases h1 : e = .jsonWebTokenError
    · exact ⟨"Invalid token", by simp [authenticateToken, hp1, hp2, hb, hl, hr, h1]⟩
    · by_cases h2 : e = .tokenExpiredError
      · exact ⟨"Token expired", by simp [authenticateToken, hp1, hp2, hb, hl, hr, h1, h2]⟩
      · exact ⟨"Token validation failed",
          by simp [authenticateToken, hp1, hp2, hb, hl, hr, h1, h2]⟩

/-- Witness for the amended C5 at the aggregate route with a concrete
expired token, an always-failing remote, and a concrete user payload. -/
theorem c5_auth_two_tier_witness :
    (authenticateToken "/api/v1/aggregate" none
        (fun _ => LocalVerify.err LocalJwtError.tokenExpiredError)
        (fun _ => RemoteVerify.failure) =
      { decision := .reject 401 noTokenMsg, remoteCalled := false }) ∧
    (authenticateToken "/api/v1/aggregate" (some "Token abc")
        (fun _ => LocalVerify.err LocalJwtError.tokenExpiredError)
        (fun _ => RemoteVerify.failure) =
      { decision := .reject 401 noTokenMsg, remoteCalled := false }) ∧
    ((authenticateToken "/api/v1/aggregate" (some "Bearer abc")
        (fun _ => LocalVerify.err LocalJwtError.tokenExpiredError)
        (fun _ => RemoteVerify.failure)).remoteCalled = true) ∧
    (∃ msg, (authenticateToken "/api/v1/aggregate" (some "Bearer abc")
        (fun _ => LocalVerify.err LocalJwtError.tokenExpiredError)
        (fun _ => RemoteVerify.failure)).decision = .reject 401 msg) := by
  have h := c5_auth_two_tier "/api/v1/aggregate" "Bearer abc"
    (fun _ => LocalVerify.err LocalJwtError.tokenExpiredError)
    (fun _ => RemoteVerify.failure) (by decide) (by decide)
  have h2 := c5_auth_two_tier "/api/v1/aggregate" "Token abc"
    (fun _ => LocalVerify.err LocalJwtError.tokenExpiredError)
    (fun _ => RemoteVerify.failure) (by decide) (by decide)
  refine ⟨h.1, h2.2.1 (by decide), ?_, ?_⟩
  · exact h.2.2.2.1 LocalJwtError.tokenExpiredError (by decide) rfl
  · exact h.2.2.2.2.2 LocalJwtError.tokenExpiredError (by decide) rfl rfl

/-- The outcome of one downstream collaborator call as `Promise.allSettled`
reports it: fulfilled with a response body, or rejected with a reason. -/
inductive Settled where
  | fulfilled (data : JsValue)
  | rejected (reason : String)
deriving DecidableEq, Repr

/-- The per-collaborator error marker the aggregate handler substitutes for
a rejected call (server.js, the `Service unavailable` object). -/
def serviceUnavailable : JsValue :=
  JsValue.vobj [("error", "Service unavailable")]

/-- How one settled outcome appears in the aggregate body. -/
def slotOf : Settled → JsValue
  | .fulfilled d => d
  | .rejected _ => serviceUnavailable

/-- The client-visible result of GET /api/v1/aggregate: the HTTP status and
the four collaborator slots of the body (server.js lines 237-252; `res.json`
responds 200). -/
structure AggregateResponse where
  status : Nat
  go_service : JsValue
  python_service : JsValue
  csharp_risk_service : JsValue
  dotnet_service : JsValue
deriving DecidableEq, Repr

/-- The aggregate fan-out (server.js lines 226-261): all four collaborator
calls are issued and awaited with `Promise.allSettled`, which never rejects;
each slot carries the collaborator's body or the error marker, and the
response status is 200 regardless of failures. -/
def aggregateHandler (go py cs dn : Settled) : AggregateResponse :=
  { status := 200
    go_service := slotOf go
    python_service := slotOf py
    csharp_risk_service := slotOf cs
    dotnet_service := slotOf dn }

/-- Claim C6: for the aggregate fan-out, whatever subset of the four
collaborators fails, the response keeps every fulfilled collaborator's body
verbatim in its slot, puts the explicit error marker in each failed
collaborator's slot, and goes out with overall HTTP status 200; no
collaborator's failure disturbs a sibling's slot or the overall status. -/
theorem c6_fanout_partial_failure (go py cs dn : Settled) :
    (aggregateHandler go py cs dn).status = 200 ∧
    (∀ d, go = .fulfilled d → (aggregateHandler go py cs dn).go_service = d) ∧
    (∀ r, go = .rejected r →
      (aggregateHandler go py cs dn).go_service = serviceUnavailable) ∧
    (∀ d, py = .fulfilled d → (aggregateHandler go py cs dn).python_service = d) ∧
    (∀ r, py = .rejected r →
      (aggregateHandler go py cs dn).python_service = serviceUnavailable) ∧
    (∀ d, cs = .fulfilled d → (aggregateHandler go py cs dn).csharp_risk_service = d) ∧
    (∀ r, cs = .rejected r →
      (aggregateHandler go py cs dn).csharp_risk_service = serviceUnavailable) ∧
    (∀ d, dn = .fulfilled d → (aggregateHandler go py cs dn).dotnet_service = d) ∧
    (∀ r, dn = .rejected r →
      (aggregateHandler go py cs dn).dotnet_service = serviceUnavailable) := by
  refine ⟨rfl, ?_, ?_, ?_, ?_, ?_, ?_, ?_, ?_⟩
  all_goals intro x hx
  all_goals simp [aggregateHandler, slotOf, hx]

/-- Witness for C6: the python collaborator fails, the other three succeed;
their bodies survive, the failed slot carries the marker, status is 200. -/
theorem c6_fanout_partial_failure_witness :
    (aggregateHandler (Settled.fulfilled (JsValue.vstr "go-stats"))
      (Settled.rejected "ECONNREFUSED") (Settled.fulfilled (JsValue.vstr "cs-stats"))
      (Settled.fulfilled (JsValue.vstr "dn-stats"))).status = 200 ∧
    (aggregateHandler (Settled.fulfilled (JsValue.vstr "go-stats"))
      (Settled.rejected "ECONNREFUSED") (Settled.fulfilled (JsValue.vstr "cs-stats"))
      (Settled.fulfilled (JsValue.vstr "dn-stats"))).go_service = JsValue.vstr "go-stats" ∧
    (aggregateHandler (Settled.fulfilled (JsValue.vstr "go-stats"))
      (Settled.rejected "ECONNREFUSED") (Settled.fulfilled (JsValue.vstr "cs-stats"))
      (Settled.fulfilled (JsValue.vstr "dn-stats"))).python_service = serviceUnavailable ∧
    (aggregateHandler (Settled.fulfilled (JsValue.vstr "go-stats"))
      (Settled.rejected "ECONNREFUSED") (Settled.fulfilled (JsValue.vstr "cs-stats"))
      (Settled.fulfilled (JsValue.vstr "dn-stats"))).dotnet_service = JsValue.vstr "dn-stats" := by
  have h := c6_fanout_partial_failure (Settled.fulfilled (JsValue.vstr "go-stats"))
    (Settled.rejected "ECONNREFUSED") (Settled.fulfilled (JsValue.vstr "cs-stats"))
    (Settled.fulfilled (JsValue.vstr "dn-stats"))
  exact ⟨h.1, h.2.1 (JsValue.vstr "go-stats") rfl, h.2.2.2.2.1 "ECONNREFUSED" rfl,
    h.2.2.2.2.2.2.2.1 (JsValue.vstr "dn-stats") rfl⟩

/-- Message-bus configuration (messageBus.js lines 3-11): exchange and
routing key come from the environment, with defaults `analytics` and
`analytics.events`; the queue is bound to the exchange under that same
routing key. -/
structure BusConfig where
  exchange : String
  routingKey : String
deriving DecidableEq, Repr

/-- The configuration in force when no environment override is set; nothing
in the repository sets RABBITMQ_ROUTING_KEY. -/
def defaultBusConfig : BusConfig :=
  { exchange := "analytics", routingKey := "analytics.events" }

/-- The message body built by `publish` (messageBus.js lines 45-49). -/
structure BusMessage (α : Type) where
  eventType : String
  payload : α
  publishedAt : Nat
deriving DecidableEq, Repr

/-- One AMQP publish as handed to `channel.publish` (messageBus.js lines
54-74): target exchange, routing key, message body, and delivery mode. -/
structure PublishedEvent (α : Type) where
  exchange : String
  routingKey : String
  message : BusMessage α
  deliveryMode : Nat
deriving DecidableEq, Repr

/-- `publish(eventType, payload)` (messageBus.js lines 43-76): the message
is `{eventType, payload, publishedAt}`; it goes to the configured exchange
under the configured routing key with deliveryMode 2 (persistent). -/
def publish {α : Type} (cfg : BusConfig) (eventType : String) (payload : α)
    (now : Nat) : PublishedEvent α :=
  { exchange := cfg.exchange
    routingKey := cfg.routingKey
    message := { eventType := eventType, payload := payload, publishedAt := now }
    deliveryMode := 2 }

/-- The fields of the upstream (Go service) response body that the gateway
mutation handler reads; each is optional because a JavaScript property
access on an absent key yields undefined. -/
structure UpstreamTxData where
  transactionId : Option String
  transaction_id : Option String
  total : Option ℚ
  currency : Option String
deriving DecidableEq, Repr

/-- The body the Go service's 200 response actually carries: its struct
tags (main.go lines 58-68) serialize the id under `transaction_id` only, so
the camelCase `transactionId` key is absent. -/
def goResponseData (txId : String) (total : ℚ) : UpstreamTxData :=
  { transactionId := none, transaction_id := some txId,
    total := some total, currency := none }

/-- JavaScript `a || b` on optional strings: undefined and the empty string
are falsy. -/
def jsOrStr (a b : Option String) : Option String :=
  match a with
  | some s => if s = "" then b else some s
  | none => b

/-- The event payload built at the call site (server.js lines 372-377). -/
structure EventPayload where
  transactionId : Option String
  amount : ℚ
  currency : Option String
deriving DecidableEq, Repr

def eventPayloadOf (data : UpstreamTxData) : EventPayload :=
  { transactionId := jsOrStr data.transactionId data.transaction_id
    amount := match data.total with
      | some t => t
      | none => 0
    currency := jsOrStr data.currency (some "USD") }

/-- The observable side effects of one successful run of
POST /api/v1/process-transaction (server.js lines 358-396): the published
event, the cache key deleted (if any), and the relayed status. The deletion
is guarded by `response.data?.transactionId` (camelCase only). -/
structure MutationEffects where
  event : PublishedEvent EventPayload
  cacheDeletedKey : Option String
  responseStatus : Nat
deriving DecidableEq, Repr

def processTransactionGateway (cfg : BusConfig) (data : UpstreamTxData)
    (now : Nat) : MutationEffects :=
  { event := publish cfg "transaction.processed" (eventPayloadOf data) now
    cacheDeletedKey :=
      match data.transactionId with
      | some id => if id = "" then none else some ("transaction:" ++ id)
      | none => none
    responseStatus := 200 }

/-- Claim C4: the claim says the cache entry `transaction:<id>` of the new
transaction is invalidated before the mutation path completes. The guard
reads the camelCase `transactionId` field, but the Go service serializes
the id under `transaction_id` only, so for every successful upstream
response the deletion is skipped and no cache key is invalidated. -/
theorem c4_cache_invalidation_never_fires (cfg : BusConfig) (txId : String)
    (total : ℚ) (now : Nat) :
    (goResponseData txId total).transaction_id = some txId ∧
    (processTransactionGateway cfg (goResponseData txId total) now).cacheDeletedKey
      = none :=
  ⟨rfl, rfl⟩

/-- Claim C9: the claim says the event is published with routing key
`transaction.processed`. Under the configuration the repository actually
runs (no RABBITMQ_ROUTING_KEY override anywhere), the routing key is
`analytics.events`; `transaction.processed` is only the eventType field
inside the message body. -/
theorem c9_routing_key_is_config_not_event_type :
    (processTransactionGateway defaultBusConfig (goResponseData "t1" 10) 0).event.routingKey
        = "analytics.events" ∧
    ¬ ((processTransactionGateway defaultBusConfig (goResponseData "t1" 10) 0).event.routingKey
        = "transaction.processed") ∧
    (processTransactionGateway defaultBusConfig (goResponseData "t1" 10) 0).event.message.eventType
        = "transaction.processed" := by
  refine ⟨rfl, ?_, rfl⟩
  decide

/-- Claim C9 (amended): every domain event produced after a successful
transaction persistence is published to the configured exchange (default
`analytics`) under the configured routing key (default `analytics.events`),
with message shape eventType-payload-publishedAt where eventType is
`transaction.processed`, and with persistent delivery mode 2. -/
theorem c9_event_publish_shape (cfg : BusConfig) (data : UpstreamTxData)
    (now : Nat) :
    (processTransactionGateway cfg data now).event =
      { exchange := cfg.exchange, routingKey := cfg.routingKey,
        message := { eventType := "transaction.processed",
                     payload := eventPayloadOf data, publishedAt := now },
        deliveryMode := 2 } :=
  rfl

/-- One hexadecimal digit of the UUID regex character class `[0-9a-f]`
under the case-insensitive flag. -/
def isHexDigit (c : Char) : Bool :=
  (decide ('0' ≤ c) && decide (c ≤ '9')) ||
  (decide ('a' ≤ c) && decide (c ≤ 'f')) ||
  (decide ('A' ≤ c) && decide (c ≤ 'F'))

/-- The version digit class `[1-5]` of the regex. -/
def isUuidVersion (c : Char) : Bool :=
  decide ('1' ≤ c) && decide (c ≤ '5')

/-- The variant digit class `[89ab]` of the regex, case-insensitive. -/
def isUuidVariant (c : Char) : Bool :=
  c == '8' || c == '9' || c == 'a' || c == 'b' || c == 'A' || c == 'B'

/-- Split a character list at every `-`, keeping empty segments, so that
the hyphen-separated group structure of the UUID regex can be checked. -/
def splitOnDash : List Char → List (List Char)
  | [] => [[]]
  | c :: rest =>
      let r := splitOnDash rest
      if c = '-' then [] :: r
      else
        match r with
        | seg :: segs => (c :: seg) :: segs
        | [] => [[c]]

/-- `isValidUuid` (server.js lines 23-27): the anchored regex
8-4-4-4-12 of hex digits, case-insensitive, with the version digit in
`[1-5]` and the variant digit in `[89ab]`, expressed over the
hyphen-separated groups of the string. -/
def isValidUuid (s : String) : Bool :=
  match splitOnDash s.data with
  | [a, b, c, d, e] =>
      a.length == 8 && b.length == 4 && c.length == 4 && d.length == 4 &&
      e.length == 12 &&
      a.all isHexDigit && b.all isHexDigit && c.all isHexDigit &&
      d.all isHexDigit && e.all isHexDigit &&
      (match c with
       | v :: _ => isUuidVersion v
       | [] => false) &&
      (match d with
       | w :: _ => isUuidVariant w
       | [] => false)
  | _ => false

/-- TTL constant for transaction lookups (server.js line 22, default). -/
def TRANSACTION_CACHE_TTL : Nat := 120

/-- What one GET /api/v1/transactions/:id run did: response status, number
of cache lookups issued, number of database fetches executed. -/
structure LookupEffects where
  status : Nat
  cacheLookups : Nat
  dbQueries : Nat
deriving DecidableEq, Repr

/-- GET /api/v1/transactions/:id (server.js lines 297-322): an id that
fails `isValidUuid` is answered 400 before the cache wrapper or the
database run; otherwise the cache-aside wrapper performs one cache lookup
and runs the database fetch only on a miss (`fetchTransactionFromPostgres`
returns null for an absent row, which the handler answers with 404). -/
def transactionLookupHandler (id : String) (st : CacheState) (now : Nat)
    (dbRecord : Option JsValue) : LookupEffects × CacheState :=
  if isValidUuid id = false then
    ({ status := 400, cacheLookups := 0, dbQueries := 0 }, st)
  else
    let fetched :=
      match dbRecord with
      | some v => v
      | none => JsValue.vnull
    let r := wrap st now ("transaction:" ++ id) fetched TRANSACTION_CACHE_TTL
    let dbQ := if r.cacheHit then 0 else 1
    if truthy r.data = false then
      ({ status := 404, cacheLookups := 1, dbQueries := dbQ }, r.st)
    else
      ({ status := 200, cacheLookups := 1, dbQueries := dbQ }, r.st)

/-- Claim C10: every GET of the transaction lookup endpoint whose id is not
a canonically formatted UUID is answered 400 (not 404), with no cache
lookup and no database query, and the cache state untouched. -/
theorem c10_invalid_uuid_rejected_early (id : String) (st : CacheState)
    (now : Nat) (dbRecord : Option JsValue) (h : isValidUuid id = false) :
    (transactionLookupHandler id st now dbRecord).1 =
      { status := 400, cacheLookups := 0, dbQueries := 0 } ∧
    (transactionLookupHandler id st now dbRecord).2 = st := by
  unfold transactionLookupHandler
  simp [h]

/-- Witness for C10 at the concrete malformed id `not-a-uuid`. -/
theorem c10_invalid_uuid_rejected_early_witness :
    (transactionLookupHandler "not-a-uuid" { entries := [] } 0
        (some (JsValue.vstr "row"))).1 =
      { status := 400, cacheLookups := 0, dbQueries := 0 } ∧
    (transactionLookupHandler "not-a-uuid" { entries := [] } 0
        (some (JsValue.vstr "row"))).2 = { entries := [] } :=
  c10_invalid_uuid_rejected_early "not-a-uuid" { entries := [] } 0
    (some (JsValue.vstr "row")) (by decide)

end Gateway
